import Mathlib

/-!
Shallow embedding of the `mcp-linkedin` LinkedIn OAuth client
(`src/src/mcp_linkedin/client.py`, `src/main.py`) and its tool layer
(`src/src/mcp_linkedin/tools.py`).

Python dictionaries of string keys/values are modelled as association
lists with Python `dict.update` semantics (an existing key keeps its
position and gets the new value; a fresh key is appended). The network
is modelled as an oracle supplied to each operation: an HTTP call either
raises (modelled as `Except.error` carrying the exception text) or
returns a response; the token endpoint's behaviour on a refresh call is
a separate oracle. Each operation returns, besides its result and the
updated client state, a trace of the outward calls it performed, so that
call-counting properties can be stated.
-/

namespace McpLinkedin

/-- Python `dict` lookup `d.get(k)` on a string-keyed dict modelled as an
association list. -/
def dictGet (d : List (String × String)) (k : String) : Option String :=
  (d.find? (fun p => p.1 = k)).map (fun p => p.2)

/-- Insert one key/value pair with Python `dict` semantics: an existing key
keeps its position and receives the new value, a fresh key is appended. -/
def dictInsert (d : List (String × String)) (kv : String × String) :
    List (String × String) :=
  if d.any (fun p => p.1 = kv.1) then
    d.map (fun p => if p.1 = kv.1 then (p.1, kv.2) else p)
  else d ++ [kv]

/-- Python `base.update(upd)` / `{**base, **upd}`: fold `dictInsert` over the
update dict. -/
def dictUpdate (base upd : List (String × String)) : List (String × String) :=
  upd.foldl dictInsert base

/-- Number of entries of a header dict whose key is `k`. -/
def countKey (d : List (String × String)) (k : String) : Nat :=
  (d.filter (fun p => p.1 = k)).length

/-- Python truthiness of an optional string: `None` and `""` are falsy. -/
def truthy : Option String → Bool
  | none => false
  | some s => !(s == "")

/-- The credential fields of `LinkedInOAuthClient` (client.py lines 14-24). -/
structure Client where
  access_token : Option String
  refresh_token : Option String
  client_id : Option String
  client_secret : Option String
  deriving Repr, DecidableEq

/-- The fixed session headers installed by `_setup_session`
(client.py lines 26-36). -/
def sessionHeaders : List (String × String) :=
  [("User-Agent", "LinkedIn-MCP-Tool/1.0"),
   ("Accept", "application/json"),
   ("Content-Type", "text/plain"),
   ("X-Restli-Protocol-Version", "2.0.0"),
   ("LinkedIn-Version", "X-Restli-Protocol-Version")]

/-- Embeds `_get_auth_headers` (client.py lines 38-43): raises `ValueError` when the
access token is absent or empty, else returns the bearer header dict. -/
def get_auth_headers (c : Client) : Except String (List (String × String)) :=
  if truthy c.access_token then
    match c.access_token with
    | some t => Except.ok [("Authorization", "Bearer " ++ t)]
    | none => Except.error "No access token available. Please authenticate first."
  else
    Except.error "No access token available. Please authenticate first."

/-- An HTTP response: status code, body text, parsed JSON body (as a flat
string dict, the only shape the code reads), and response headers. -/
structure HttpResp where
  status : Nat
  text : String
  jsonBody : List (String × String)
  headers : List (String × String)
  deriving Repr, DecidableEq

/-- One outward call recorded in a trace: an API request (with the URL and
the headers actually sent) or a call to the OAuth token endpoint. -/
inductive Event where
  | apiCall (url : String) (headers : List (String × String))
  | refreshCall
  deriving Repr, DecidableEq

/-- Number of API requests in a trace. -/
def countApiCalls (t : List Event) : Nat :=
  (t.filter (fun e => match e with | .apiCall _ _ => true | _ => false)).length

/-- Number of token-endpoint calls in a trace. -/
def countRefreshCalls (t : List Event) : Nat :=
  (t.filter (fun e => match e with | .refreshCall => true | _ => false)).length

/-- The Authorization header an event sent, if it is an API call. -/
def eventAuth (e : Event) : Option String :=
  match e with
  | .apiCall _ h => dictGet h "Authorization"
  | .refreshCall => none

/-- The parsed JSON body of a token-endpoint 200 response, as the code reads
it: `token_data.get("access_token")` and whether `"refresh_token"` is a key. -/
structure TokenData where
  access_token : Option String
  refresh_token : Option String
  deriving Repr, DecidableEq

/-- Behaviour of the token endpoint on one refresh call: the POST (or the
JSON decode) raises, or a response with a status and body comes back. -/
inductive RefreshHttp where
  | raises (msg : String)
  | respond (status : Nat) (body : TokenData)
  deriving Repr, DecidableEq

/-- Result of `refresh_access_token`: the returned bool, the client state
after the call, and the trace of outward calls. -/
structure RefreshOutcome where
  ok : Bool
  client : Client
  trace : List Event
  deriving Repr, DecidableEq

/-- Embeds `refresh_access_token` (client.py lines 45-87): fails closed when a
credential is missing; on a 200 replaces `access_token` with
`token_data.get("access_token")` and `refresh_token` only when the body has
one; on any non-200 or exception returns `False` with the state untouched. -/
def refresh_access_token (c : Client) (net : RefreshHttp) : RefreshOutcome :=
  if !(truthy c.refresh_token) || !(truthy c.client_id) || !(truthy c.client_secret) then
    ⟨false, c, []⟩
  else
    match net with
    | .raises _ => ⟨false, c, [Event.refreshCall]⟩
    | .respond status body =>
      if status = 200 then
        let c1 : Client := { c with access_token := body.access_token }
        let c2 : Client :=
          if body.refresh_token.isSome then
            { c1 with refresh_token := body.refresh_token }
          else c1
        ⟨true, c2, [Event.refreshCall]⟩
      else
        ⟨false, c, [Event.refreshCall]⟩

/-- Exceptions `_make_request` can propagate: the `ValueError` from
`_get_auth_headers`, the `Exception("Failed to refresh access token")`
raised on refresh failure, or a transport error from `session.request`. -/
inductive ReqError where
  | noAccessToken
  | refreshFailed
  | transport (msg : String)
  deriving Repr, DecidableEq

/-- The `str(e)` text of a propagated exception. -/
def reqErrorMsg : ReqError → String
  | .noAccessToken => "No access token available. Please authenticate first."
  | .refreshFailed => "Failed to refresh access token"
  | .transport m => m

/-- The world one `_make_request` call runs against: the outcome of the
first `session.request`, the token endpoint's behaviour if a refresh
happens, and the outcome of the retried `session.request`. -/
structure RequestWorld where
  first : Except String HttpResp
  refreshNet : RefreshHttp
  second : Except String HttpResp

/-- Result of `_make_request`: the response or propagated exception, the
client state after the call, and the trace of outward calls. -/
structure RequestOutcome where
  result : Except ReqError HttpResp
  client : Client
  trace : List Event

/-- Embeds `_make_request` (client.py lines 89-124; identical to `make_request` in
main.py lines 95-130). Builds headers as `{**session.headers, **auth}`,
updated with the caller's `kwargs["headers"]` when present, then stores the
merged dict back into `kwargs["headers"]`. On a 401 it refreshes; on refresh
success it rebuilds headers with the new token and — since `kwargs` now holds
the first attempt's merged headers — updates them with those stale headers
before retrying; on refresh failure it raises. -/
def make_request (c : Client) (endpoint : String)
    (kwargsHeaders : Option (List (String × String))) (w : RequestWorld) :
    RequestOutcome :=
  let url := "https://api.linkedin.com" ++ endpoint
  match get_auth_headers c with
  | .error _ => ⟨Except.error ReqError.noAccessToken, c, []⟩
  | .ok auth =>
    let headers := dictUpdate sessionHeaders auth
    let headers :=
      match kwargsHeaders with
      | some kh => dictUpdate headers kh
      | none => headers
    let kwargsHeaders1 := headers
    match w.first with
    | .error m => ⟨Except.error (ReqError.transport m), c, [Event.apiCall url headers]⟩
    | .ok resp =>
      if resp.status = 401 then
        let r := refresh_access_token c w.refreshNet
        if r.ok then
          match get_auth_headers r.client with
          | .error _ =>
            ⟨Except.error ReqError.noAccessToken, r.client,
              [Event.apiCall url headers] ++ r.trace⟩
          | .ok auth2 =>
            let headers2 := dictUpdate (dictUpdate sessionHeaders auth2) kwargsHeaders1
            match w.second with
            | .error m =>
              ⟨Except.error (ReqError.transport m), r.client,
                [Event.apiCall url headers] ++ r.trace ++ [Event.apiCall url headers2]⟩
            | .ok resp2 =>
              ⟨Except.ok resp2, r.client,
                [Event.apiCall url headers] ++ r.trace ++ [Event.apiCall url headers2]⟩
        else
          ⟨Except.error ReqError.refreshFailed, r.client,
            [Event.apiCall url headers] ++ r.trace⟩
      else
        ⟨Except.ok resp, c, [Event.apiCall url headers]⟩

/-- Result of `get_profile`: the parsed profile, the raw `ValueError` when no
token is set, a raw transport exception, or one of the wrapped `Exception`
messages the handler produces. -/
inductive ProfileResult where
  | ok (body : List (String × String))
  | valueError
  | transport (msg : String)
  | appError (msg : String)
  deriving Repr, DecidableEq

/-- Result plus call trace of one `get_profile` call. -/
structure ProfileOutcome where
  result : ProfileResult
  trace : List Event

/-- Embeds `get_profile` (client.py lines 126-153; identical in main.py lines
132-159). Issues `session.request` directly — not through `_make_request` —
then `raise_for_status`; 403/401/other HTTP errors become wrapped
`Exception`s, anything else propagates. -/
def get_profile (c : Client) (fields : Option String)
    (net : Except String HttpResp) : ProfileOutcome :=
  let endpoint :=
    match fields with
    | some f => "/v2/userinfo?fields=" ++ f
    | none => "/v2/userinfo"
  match get_auth_headers c with
  | .error _ => ⟨ProfileResult.valueError, []⟩
  | .ok auth =>
    let v2_url := "https://api.linkedin.com" ++ endpoint
    let headers := dictUpdate sessionHeaders auth
    match net with
    | .error m => ⟨ProfileResult.transport m, [Event.apiCall v2_url headers]⟩
    | .ok resp =>
      if 400 ≤ resp.status ∧ resp.status < 600 then
        if resp.status = 403 then
          ⟨ProfileResult.appError
            "Profile access forbidden. Please ensure your LinkedIn app has the 'r_basicprofile' or 'profile' scope.",
            [Event.apiCall v2_url headers]⟩
        else if resp.status = 401 then
          ⟨ProfileResult.appError
            "Unauthorized. Please check your access token or refresh it.",
            [Event.apiCall v2_url headers]⟩
        else
          ⟨ProfileResult.appError
            ("Profile API error: " ++ toString resp.status ++ " - " ++ resp.text),
            [Event.apiCall v2_url headers]⟩
      else
        ⟨ProfileResult.ok resp.jsonBody, [Event.apiCall v2_url headers]⟩

/-- Render a profile dict the way `_get_profile_info` does (tools.py lines
26-28): a header line then one `key: value` line per entry. -/
def renderProfile (profile : List (String × String)) : String :=
  profile.foldl (fun acc kv => acc ++ kv.1 ++ ": " ++ kv.2 ++ "\n")
    "LinkedIn Profile Information:\n"

/-- Embeds `_get_profile_info` (tools.py lines 10-34): formats the profile returned
by `client.get_profile`, or converts any exception raised inside the `try`
into an error string. -/
def _get_profile_info (profile : Except String (List (String × String))) : String :=
  match profile with
  | .ok p => renderProfile p
  | .error e => "Error retrieving profile: " ++ e

/-- Embeds `_refresh_token` (tools.py lines 37-55): reports the bool returned by
`client.refresh_access_token`, or converts any exception into an error
string. -/
def _refresh_token (success : Except String Bool) : String :=
  match success with
  | .ok true => "Access token refreshed successfully."
  | .ok false =>
    "Failed to refresh access token. Check your refresh token and client credentials."
  | .error e => "Error refreshing token: " ++ e

/-- The `distribution` sub-object of the post payload (tools.py lines
84-88). -/
structure Distribution where
  feedDistribution : String
  targetEntities : List String
  thirdPartyDistributionChannels : List String
  deriving Repr, DecidableEq

/-- The post payload `post_data` (tools.py lines 80-91). -/
structure PostData where
  author : String
  commentary : String
  visibility : String
  distribution : Distribution
  lifecycleState : String
  isReshareDisabledByAuthor : Bool
  deriving Repr, DecidableEq

/-- The payload `_create_post` builds (tools.py lines 80-91). -/
def createPostBody (author commentary visibility feed_distribution : String) :
    PostData :=
  { author := author
    commentary := commentary
    visibility := visibility
    distribution :=
      { feedDistribution := feed_distribution
        targetEntities := []
        thirdPartyDistributionChannels := [] }
    lifecycleState := "PUBLISHED"
    isReshareDisabledByAuthor := false }

/-- Stand-in for the `requests` library's `str(HTTPError)` produced by
`raise_for_status` (external library behaviour, not this repository's): a
deterministic string naming the status and URL. -/
def httpErrorStr (status : Nat) (url : String) : String :=
  toString status ++ " Error for url: " ++ url

/-- Embeds `_create_post` (tools.py lines 58-117): builds the payload, POSTs it via
`client._make_request("POST", "/posts", json=post_data)`, calls
`raise_for_status`, and reads the `x-restli-id` response header. Exceptions
carrying a response (the `HTTPError` from `raise_for_status`) get the
response text appended; other exceptions are stringified. -/
def _create_post (author commentary visibility feed_distribution : String)
    (c : Client) (w : RequestWorld) : String :=
  let _post_data := createPostBody author commentary visibility feed_distribution
  let o := make_request c "/posts" none w
  match o.result with
  | .error e => "Error creating post: " ++ reqErrorMsg e
  | .ok resp =>
    if 400 ≤ resp.status ∧ resp.status < 600 then
      "Error creating post: " ++ httpErrorStr resp.status "https://api.linkedin.com/posts" ++
        "\nAPI Response: " ++ resp.text
    else
      "Post created successfully! Post ID: " ++
        (dictGet resp.headers "x-restli-id").getD "Unknown"

/-! ## Helper lemmas -/

theorem countApiCalls_append (a b : List Event) :
    countApiCalls (a ++ b) = countApiCalls a + countApiCalls b := by
  simp [countApiCalls, List.filter_append]

theorem countRefreshCalls_append (a b : List Event) :
    countRefreshCalls (a ++ b) = countRefreshCalls a + countRefreshCalls b := by
  simp [countRefreshCalls, List.filter_append]

/-- A refresh call never issues an API request. -/
theorem refresh_trace_no_api (c : Client) (net : RefreshHttp) :
    countApiCalls (refresh_access_token c net).trace = 0 := by
  cases net <;>
    simp only [refresh_access_token] <;>
    split_ifs <;>
    simp [countApiCalls]

/-- A refresh call hits the token endpoint at most once. -/
theorem refresh_trace_le_one (c : Client) (net : RefreshHttp) :
    countRefreshCalls (refresh_access_token c net).trace ≤ 1 := by
  cases net <;>
    simp only [refresh_access_token] <;>
    split_ifs <;>
    simp [countRefreshCalls]

/-- A one-element API-call trace counts one API call. -/
theorem countApiCalls_single_api (u : String) (h : List (String × String)) :
    countApiCalls [Event.apiCall u h] = 1 := rfl

/-- A one-element API-call trace counts zero refresh calls. -/
theorem countRefreshCalls_single_api (u : String) (h : List (String × String)) :
    countRefreshCalls [Event.apiCall u h] = 0 := rfl

/-- With a nonempty access token, `_get_auth_headers` returns the single
bearer header. -/
theorem get_auth_headers_ok (c : Client) (t : String)
    (hc : c.access_token = some t) (ht : t ≠ "") :
    get_auth_headers c = Except.ok [("Authorization", "Bearer " ++ t)] := by
  simp [get_auth_headers, truthy, hc, ht]

/-- With a falsy access token, `_get_auth_headers` raises. -/
theorem get_auth_headers_err (c : Client) (h : truthy c.access_token = false) :
    get_auth_headers c =
      Except.error "No access token available. Please authenticate first." := by
  simp [get_auth_headers, h]

/-- Merging the bearer header into the session headers appends it, since no
session header uses the `Authorization` key. -/
theorem sessionHeaders_auth_update (v : String) :
    dictUpdate sessionHeaders [("Authorization", v)] =
      sessionHeaders ++ [("Authorization", v)] := rfl

/-- The merged first-attempt headers hold exactly one `Authorization`
entry. -/
theorem countKey_sessionHeaders_auth (v : String) :
    countKey (sessionHeaders ++ [("Authorization", v)]) "Authorization" = 1 := rfl

/-- Looking up `Authorization` in the merged first-attempt headers yields the
bearer value. -/
theorem dictGet_sessionHeaders_auth (v : String) :
    dictGet (sessionHeaders ++ [("Authorization", v)]) "Authorization" = some v := rfl

/-- Whatever the world does, `_make_request`'s first outward call (when the
access token is present) goes to the requested URL with the merged
session-plus-bearer headers. -/
theorem make_request_trace_head (c : Client) (endpoint : String)
    (w : RequestWorld) (auth : List (String × String))
    (hga : get_auth_headers c = Except.ok auth) :
    (make_request c endpoint none w).trace.head? =
      some (Event.apiCall ("https://api.linkedin.com" ++ endpoint)
        (dictUpdate sessionHeaders auth)) := by
  unfold make_request
  rw [hga]
  rcases hf : w.first with m | resp
  · simp [hf]
  · simp only [hf]
    by_cases h4 : resp.status = 401
    · simp only [h4, if_pos, if_true]
      by_cases hok : (refresh_access_token c w.refreshNet).ok = true
      · simp only [hok, if_true]
        rcases hga2 : get_auth_headers (refresh_access_token c w.refreshNet).client
          with m2 | auth2
        · simp [hga2]
        · simp only [hga2]
          rcases hs : w.second with m3 | resp2 <;> simp [hs]
      · simp [hok]
    · simp [h4]

/-- When the first attempt comes back with a status other than 401,
`_make_request` returns it as-is: no refresh, no retry, no state change. -/
theorem make_request_non401 (c : Client) (endpoint : String)
    (w : RequestWorld) (auth : List (String × String)) (resp : HttpResp)
    (hga : get_auth_headers c = Except.ok auth) (hf : w.first = Except.ok resp)
    (h4 : resp.status ≠ 401) :
    make_request c endpoint none w =
      ⟨Except.ok resp, c,
       [Event.apiCall ("https://api.linkedin.com" ++ endpoint)
         (dictUpdate sessionHeaders auth)]⟩ := by
  unfold make_request
  rw [hga]
  simp [hf, h4]

/-! ## Claims -/

/-- Concrete input for the stale-token retry: a client holding access token
`"oldtok"` and full refresh credentials. -/
def staleRetryClient : Client := ⟨some "oldtok", some "rt", some "cid", some "sec"⟩

/-- World for the stale-token retry: first attempt answers 401, the token
endpoint answers 200 with new access token `"newtok"` and no rotation, the
retried request answers 201. -/
def staleRetryWorld : RequestWorld :=
  ⟨Except.ok ⟨401, "", [], []⟩,
   RefreshHttp.respond 200 ⟨some "newtok", none⟩,
   Except.ok ⟨201, "", [], [("x-restli-id", "p1")]⟩⟩

/-- C1: on a 401 followed by a successful refresh, `_make_request` performs
exactly one refresh and one retry and stores the new token in the client —
but because `kwargs["headers"]` was overwritten with the first attempt's
merged headers, the retry's `Authorization` header still carries the OLD
token (`Bearer oldtok`), not the refreshed one, contradicting the code's own
`# Retry with new token` comment. -/
theorem make_request_retry_sends_stale_token :
    (make_request staleRetryClient "/posts" none staleRetryWorld).result =
      Except.ok ⟨201, "", [], [("x-restli-id", "p1")]⟩ ∧
    countRefreshCalls
      (make_request staleRetryClient "/posts" none staleRetryWorld).trace = 1 ∧
    countApiCalls
      (make_request staleRetryClient "/posts" none staleRetryWorld).trace = 2 ∧
    (make_request staleRetryClient "/posts" none staleRetryWorld).client.access_token =
      some "newtok" ∧
    (make_request staleRetryClient "/posts" none staleRetryWorld).trace.map eventAuth =
      [some "Bearer oldtok", none, some "Bearer oldtok"] :=
  ⟨rfl, rfl, rfl, rfl, rfl⟩

/-- C2: when the first attempt answers 401 and the refresh fails,
`_make_request` propagates the refresh-failure exception, having made
exactly one API call (the original; zero retries) and at most one refresh
attempt. -/
theorem make_request_refresh_failure_no_retry (c : Client) (endpoint : String)
    (kh : Option (List (String × String))) (w : RequestWorld) (t : String)
    (resp : HttpResp) (hc : c.access_token = some t) (ht : t ≠ "")
    (hfirst : w.first = Except.ok resp) (h401 : resp.status = 401)
    (href : (refresh_access_token c w.refreshNet).ok = false) :
    (make_request c endpoint kh w).result = Except.error ReqError.refreshFailed ∧
    countApiCalls (make_request c endpoint kh w).trace = 1 ∧
    countRefreshCalls (make_request c endpoint kh w).trace ≤ 1 := by
  have hga := get_auth_headers_ok c t hc ht
  unfold make_request
  rw [hga]
  simp only [hfirst, h401, if_pos, href, Bool.false_eq_true, if_false]
  refine ⟨by trivial, ?_, ?_⟩
  · rw [countApiCalls_append, refresh_trace_no_api, countApiCalls_single_api]
  · rw [countRefreshCalls_append, countRefreshCalls_single_api]
    simpa using refresh_trace_le_one c w.refreshNet


theorem make_request_refresh_failure_no_retry_witness :
    (make_request ⟨some "tok", none, none, none⟩ "/v2/userinfo" none
        ⟨Except.ok ⟨401, "", [], []⟩, RefreshHttp.raises "down",
         Except.ok ⟨200, "", [], []⟩⟩).result
      = Except.error ReqError.refreshFailed ∧
    countApiCalls
      (make_request ⟨some "tok", none, none, none⟩ "/v2/userinfo" none
        ⟨Except.ok ⟨401, "", [], []⟩, RefreshHttp.raises "down",
         Except.ok ⟨200, "", [], []⟩⟩).trace = 1 ∧
    countRefreshCalls
      (make_request ⟨some "tok", none, none, none⟩ "/v2/userinfo" none
        ⟨Except.ok ⟨401, "", [], []⟩, RefreshHttp.raises "down",
         Except.ok ⟨200, "", [], []⟩⟩).trace ≤ 1 :=
  make_request_refresh_failure_no_retry ⟨some "tok", none, none, none⟩
    "/v2/userinfo" none
    ⟨Except.ok ⟨401, "", [], []⟩, RefreshHttp.raises "down",
     Except.ok ⟨200, "", [], []⟩⟩
    "tok" ⟨401, "", [], []⟩ rfl (by decide) rfl rfl (by decide)

/-- Concrete input for the `get_profile` 401 behaviour: a client holding a
valid-looking access token and full refresh credentials. -/
def profile401Client : Client := ⟨some "tok", some "rt", some "cid", some "sec"⟩

/-- C4 counterexample: `get_profile` does NOT route a 401 through the
refresh-and-retry path. At a concrete input whose HTTP response is 401 —
with a client that holds every credential a refresh would need — the call
performs zero refresh calls and zero retries (a single API call) and
surfaces a wrapped Unauthorized error instead of recovering. -/
theorem get_profile_401_no_refresh_counterexample :
    (get_profile profile401Client none (Except.ok ⟨401, "", [], []⟩)).result =
      ProfileResult.appError
        "Unauthorized. Please check your access token or refresh it." ∧
    countRefreshCalls
      (get_profile profile401Client none (Except.ok ⟨401, "", [], []⟩)).trace = 0 ∧
    countApiCalls
      (get_profile profile401Client none (Except.ok ⟨401, "", [], []⟩)).trace = 1 :=
  ⟨rfl, rfl, rfl⟩

/-- C4 (amended): `get_profile` issues its request directly, outside
`_make_request`; whenever the response is 401, it performs no refresh call
and no retry — exactly one API call — and raises the wrapped
`Unauthorized` error to its caller. -/
theorem get_profile_401_surfaces_error (c : Client) (fields : Option String)
    (resp : HttpResp) (t : String) (hc : c.access_token = some t) (ht : t ≠ "")
    (h401 : resp.status = 401) :
    (get_profile c fields (Except.ok resp)).result =
      ProfileResult.appError
        "Unauthorized. Please check your access token or refresh it." ∧
    countRefreshCalls (get_profile c fields (Except.ok resp)).trace = 0 ∧
    countApiCalls (get_profile c fields (Except.ok resp)).trace = 1 := by
  have hga := get_auth_headers_ok c t hc ht
  unfold get_profile
  rw [hga]
  simp [h401, countRefreshCalls, countApiCalls]

theorem get_profile_401_surfaces_error_witness :
    (get_profile profile401Client (some "id") (Except.ok ⟨401, "denied", [], []⟩)).result =
      ProfileResult.appError
        "Unauthorized. Please check your access token or refresh it." ∧
    countRefreshCalls
      (get_profile profile401Client (some "id") (Except.ok ⟨401, "denied", [], []⟩)).trace
      = 0 := by
  have h := get_profile_401_surfaces_error profile401Client (some "id")
    ⟨401, "denied", [], []⟩ "tok" rfl (by decide) rfl
  exact ⟨h.1, h.2.1⟩

/-- C7: with no access token set, `_make_request` raises the missing-token
error before any outward call; with a nonempty token `t`, the first outward
request carries exactly one `Authorization` header, valued `Bearer t`, and
when the response is anything but 401 the response is returned as-is with no
refresh performed. -/
theorem make_request_bearer_header (c : Client) (endpoint : String)
    (w : RequestWorld) :
    (truthy c.access_token = false →
      (make_request c endpoint none w).result = Except.error ReqError.noAccessToken ∧
      (make_request c endpoint none w).trace = []) ∧
    (∀ t, c.access_token = some t → t ≠ "" →
      ((make_request c endpoint none w).trace.head? =
          some (Event.apiCall ("https://api.linkedin.com" ++ endpoint)
            (sessionHeaders ++ [("Authorization", "Bearer " ++ t)])) ∧
        countKey (sessionHeaders ++ [("Authorization", "Bearer " ++ t)])
          "Authorization" = 1 ∧
        dictGet (sessionHeaders ++ [("Authorization", "Bearer " ++ t)])
          "Authorization" = some ("Bearer " ++ t)) ∧
      (∀ resp, w.first = Except.ok resp → resp.status ≠ 401 →
        (make_request c endpoint none w).result = Except.ok resp ∧
        countRefreshCalls (make_request c endpoint none w).trace = 0)) := by
  constructor
  · intro h
    have herr := get_auth_headers_err c h
    constructor <;> simp [make_request, herr]
  · intro t hc ht
    have hga := get_auth_headers_ok c t hc ht
    refine ⟨⟨?_, countKey_sessionHeaders_auth _, dictGet_sessionHeaders_auth _⟩, ?_⟩
    · rw [make_request_trace_head c endpoint w _ hga, sessionHeaders_auth_update]
    · intro resp hf h4
      rw [make_request_non401 c endpoint w _ resp hga hf h4]
      exact ⟨rfl, countRefreshCalls_single_api _ _⟩

theorem make_request_bearer_header_witness :
    (make_request ⟨some "tok", none, none, none⟩ "/v2/userinfo" none
        ⟨Except.ok ⟨200, "ok", [], []⟩, RefreshHttp.raises "x",
         Except.error "y"⟩).trace.head? =
      some (Event.apiCall "https://api.linkedin.com/v2/userinfo"
        (sessionHeaders ++ [("Authorization", "Bearer tok")])) ∧
    countKey (sessionHeaders ++ [("Authorization", "Bearer tok")]) "Authorization" = 1 ∧
    (make_request ⟨some "tok", none, none, none⟩ "/v2/userinfo" none
        ⟨Except.ok ⟨200, "ok", [], []⟩, RefreshHttp.raises "x",
         Except.error "y"⟩).result = Except.ok ⟨200, "ok", [], []⟩ ∧
    (make_request ⟨none, none, none, none⟩ "/v2/userinfo" none
        ⟨Except.ok ⟨200, "ok", [], []⟩, RefreshHttp.raises "x",
         Except.error "y"⟩).trace = [] := by
  have h := make_request_bearer_header ⟨some "tok", none, none, none⟩ "/v2/userinfo"
    ⟨Except.ok ⟨200, "ok", [], []⟩, RefreshHttp.raises "x", Except.error "y"⟩
  have h2 := h.2 "tok" rfl (by decide)
  have h3 := h2.2 ⟨200, "ok", [], []⟩ rfl (by decide)
  have h0 := make_request_bearer_header ⟨none, none, none, none⟩ "/v2/userinfo"
    ⟨Except.ok ⟨200, "ok", [], []⟩, RefreshHttp.raises "x", Except.error "y"⟩
  exact ⟨h2.1.1, h2.1.2.1, h3.1, (h0.1 rfl).2⟩

/-- C8: each of the three tool operations is total over every outcome of the
underlying client call — it always returns a string, never an exception —
and on every error path the string is the documented description of the
failure. -/
theorem tools_error_boundary :
    (∀ pr : Except String (List (String × String)),
      (∃ p, pr = Except.ok p ∧ _get_profile_info pr = renderProfile p) ∨
      (∃ e, pr = Except.error e ∧
        _get_profile_info pr = "Error retrieving profile: " ++ e)) ∧
    (∀ rr : Except String Bool,
      _refresh_token rr = "Access token refreshed successfully." ∨
      _refresh_token rr =
        "Failed to refresh access token. Check your refresh token and client credentials." ∨
      (∃ e, rr = Except.error e ∧
        _refresh_token rr = "Error refreshing token: " ++ e)) ∧
    (∀ author commentary visibility fd : String, ∀ c : Client, ∀ w : RequestWorld,
      (∃ pid, _create_post author commentary visibility fd c w =
        "Post created successfully! Post ID: " ++ pid) ∨
      (∃ m, _create_post author commentary visibility fd c w =
        "Error creating post: " ++ m)) := by
  refine ⟨?_, ?_, ?_⟩
  · intro pr
    cases pr with
    | ok p => exact Or.inl ⟨p, rfl, rfl⟩
    | error e => exact Or.inr ⟨e, rfl, rfl⟩
  · intro rr
    cases rr with
    | ok b => cases b with
      | true => exact Or.inl rfl
      | false => exact Or.inr (Or.inl rfl)
    | error e => exact Or.inr (Or.inr ⟨e, rfl, rfl⟩)
  · intro author commentary visibility fd c w
    unfold _create_post
    rcases hres : (make_request c "/posts" none w).result with e | resp
    · exact Or.inr ⟨reqErrorMsg e, by simp [hres]⟩
    · by_cases hrange : 400 ≤ resp.status ∧ resp.status < 600
      · exact Or.inr
          ⟨httpErrorStr resp.status "https://api.linkedin.com/posts" ++
            "\nAPI Response: " ++ resp.text, by
              simp [hres, hrange, String.append_assoc]⟩
      · exact Or.inl
          ⟨(dictGet resp.headers "x-restli-id").getD "Unknown", by simp [hres, hrange]⟩

/-- C3: a failed `refresh_access_token` call — non-200 status or a raised
exception — leaves both `access_token` and `refresh_token` exactly as they
were (failed refresh is atomic). -/
theorem refresh_failure_preserves_tokens (c : Client) (net : RefreshHttp)
    (h : (refresh_access_token c net).ok = false) :
    (refresh_access_token c net).client.access_token = c.access_token ∧
    (refresh_access_token c net).client.refresh_token = c.refresh_token := by
  cases net with
  | raises m =>
    simp only [refresh_access_token] at h ⊢
    split_ifs <;> simp_all
  | respond status body =>
    simp only [refresh_access_token] at h ⊢
    split_ifs at h ⊢ <;> simp_all

theorem refresh_failure_preserves_tokens_witness :
    (refresh_access_token ⟨some "a", some "r", some "i", some "s"⟩
        (RefreshHttp.respond 500 ⟨none, none⟩)).ok = false ∧
    (refresh_access_token ⟨some "a", some "r", some "i", some "s"⟩
        (RefreshHttp.respond 500 ⟨none, none⟩)).client.access_token = some "a" ∧
    (refresh_access_token ⟨some "a", some "r", some "i", some "s"⟩
        (RefreshHttp.respond 500 ⟨none, none⟩)).client.refresh_token = some "r" :=
  ⟨by decide,
   (refresh_failure_preserves_tokens ⟨some "a", some "r", some "i", some "s"⟩
      (RefreshHttp.respond 500 ⟨none, none⟩) (by decide)).1,
   (refresh_failure_preserves_tokens ⟨some "a", some "r", some "i", some "s"⟩
      (RefreshHttp.respond 500 ⟨none, none⟩) (by decide)).2⟩

/-- C5: on a 200 token response whose body has no `refresh_token` key,
`refresh_access_token` leaves the stored refresh token unchanged (rotation
only happens when the server sends one). -/
theorem refresh_rotation_only_when_provided (c : Client) (body : TokenData)
    (h : body.refresh_token = none) :
    (refresh_access_token c (RefreshHttp.respond 200 body)).client.refresh_token =
      c.refresh_token := by
  unfold refresh_access_token
  split
  · rfl
  · simp [h]

theorem refresh_rotation_only_when_provided_witness :
    (⟨some "new", none⟩ : TokenData).refresh_token = none ∧
    (refresh_access_token ⟨some "a", some "r", some "i", some "s"⟩
        (RefreshHttp.respond 200 ⟨some "new", none⟩)).client.refresh_token = some "r" :=
  ⟨rfl,
   refresh_rotation_only_when_provided ⟨some "a", some "r", some "i", some "s"⟩
     ⟨some "new", none⟩ rfl⟩

/-- C6: when `refresh_token`, `client_id` or `client_secret` is missing
(`None` or empty), `refresh_access_token` returns `False` without raising,
issues no network call, and changes no credential field. -/
theorem refresh_missing_credentials_fails_closed (c : Client) (net : RefreshHttp)
    (h : truthy c.refresh_token = false ∨ truthy c.client_id = false ∨
      truthy c.client_secret = false) :
    refresh_access_token c net = ⟨false, c, []⟩ := by
  rcases h with h | h | h <;> simp [refresh_access_token, h]

theorem refresh_missing_credentials_fails_closed_witness :
    truthy (⟨some "a", none, some "i", some "s"⟩ : Client).refresh_token = false ∧
    refresh_access_token ⟨some "a", none, some "i", some "s"⟩
        (RefreshHttp.respond 200 ⟨some "new", some "newr"⟩) =
      ⟨false, ⟨some "a", none, some "i", some "s"⟩, []⟩ :=
  ⟨rfl,
   refresh_missing_credentials_fails_closed ⟨some "a", none, some "i", some "s"⟩
     (RefreshHttp.respond 200 ⟨some "new", some "newr"⟩) (Or.inl rfl)⟩

/-- C9: for every author and commentary, the payload `_create_post` builds
with `visibility="PUBLIC"` and `feed_distribution="MAIN_FEED"` carries
`distribution.feedDistribution = "MAIN_FEED"`,
`lifecycleState = "PUBLISHED"`, and the author and commentary verbatim. -/
theorem create_post_body_fields (author commentary : String) :
    (createPostBody author commentary "PUBLIC" "MAIN_FEED").distribution.feedDistribution
        = "MAIN_FEED" ∧
    (createPostBody author commentary "PUBLIC" "MAIN_FEED").lifecycleState
        = "PUBLISHED" ∧
    (createPostBody author commentary "PUBLIC" "MAIN_FEED").author = author ∧
    (createPostBody author commentary "PUBLIC" "MAIN_FEED").commentary = commentary :=
  ⟨rfl, rfl, rfl, rfl⟩

/-- C10: on a 200 token response whose body lacks `access_token`,
`refresh_access_token` still returns `True` while storing `None` as the
access token, after which every authenticated request fails with the
missing-token error. -/
theorem refresh_success_with_missing_access_token (c : Client) (body : TokenData)
    (hr : truthy c.refresh_token = true) (hi : truthy c.client_id = true)
    (hs : truthy c.client_secret = true) (hb : body.access_token = none) :
    (refresh_access_token c (RefreshHttp.respond 200 body)).ok = true ∧
    (refresh_access_token c (RefreshHttp.respond 200 body)).client.access_token
        = none ∧
    (∀ endpoint w,
      (make_request (refresh_access_token c (RefreshHttp.respond 200 body)).client
          endpoint none w).result = Except.error ReqError.noAccessToken) := by
  have hnone :
      (refresh_access_token c (RefreshHttp.respond 200 body)).client.access_token
        = none := by
    unfold refresh_access_token
    simp [hr, hi, hs]
    split <;> simp [hb]
  refine ⟨?_, hnone, ?_⟩
  · unfold refresh_access_token
    simp [hr, hi, hs]
  · intro endpoint w
    have herr :=
      get_auth_headers_err
        (refresh_access_token c (RefreshHttp.respond 200 body)).client
        (by rw [hnone]; rfl)
    simp [make_request, herr]

theorem refresh_success_with_missing_access_token_witness :
    (refresh_access_token ⟨some "old", some "r", some "i", some "s"⟩
        (RefreshHttp.respond 200 ⟨none, none⟩)).ok = true ∧
    (refresh_access_token ⟨some "old", some "r", some "i", some "s"⟩
        (RefreshHttp.respond 200 ⟨none, none⟩)).client.access_token = none ∧
    (make_request
        (refresh_access_token ⟨some "old", some "r", some "i", some "s"⟩
          (RefreshHttp.respond 200 ⟨none, none⟩)).client
        "/v2/userinfo" none
        ⟨Except.ok ⟨200, "", [], []⟩, RefreshHttp.raises "x", Except.error "y"⟩).result
      = Except.error ReqError.noAccessToken := by
  have h := refresh_success_with_missing_access_token
    ⟨some "old", some "r", some "i", some "s"⟩ ⟨none, none⟩ rfl rfl rfl rfl
  exact ⟨h.1, h.2.1,
    h.2.2 "/v2/userinfo" ⟨Except.ok ⟨200, "", [], []⟩, RefreshHttp.raises "x", Except.error "y"⟩⟩

end McpLinkedin
